import Mathlib

/-! Shallow embedding of the Terrain3D storage and editor core
(`terrain_storage.cpp` and `terrain_editor.cpp`).

Modelling conventions:
* `float` scalars are modelled as exact rationals; the C float-to-int cast is
  truncation toward zero (`cint`), and Godot's `Vector2.floor` is the rational
  floor.
* Godot `Image` objects are external collaborators.  The region-map image is
  the fixed `REGION_MAP_SIZE x REGION_MAP_SIZE` (16 x 16) `FORMAT_RG8` image
  `_update_regions` creates: it is modelled as a pixel function together with
  the host library's bounds-checked accessors — `set_pixelv` outside
  `[0, 16)^2` is a rejected no-op and `get_pixelv` outside returns the empty
  `Color` (red channel 0), as in the editor (debug) builds this tool runs in —
  and the RG8 red channel quantizes each stored value through the C cast
  `uint8(CLAMP(r * 255, 0, 255))`, read back as `n / 255`.  These bounds
  matter: the strict capacity check `ABS(offset) > REGION_MAP_SIZE / 2`
  admits offset components equal to +8, whose pixel `offset + (8, 8)` has a
  coordinate of 16 and falls outside the image.
* The height/control/color tiles are opaque image references (modelled as
  `Nat` identifiers) at the storage level; their pixel contents are mutated
  only through the brush blend kernel of `_operate_map`, which is embedded
  separately as the pure function `operate_map_blend` on one pixel.
* A `Generated` cache of a layered texture keeps only its `dirty` flag (its
  GPU id is irrelevant here); the region-map `Generated` keeps its retained
  image, whose presence coincides with cleanliness exactly as in the source
  (`clear` drops the image and marks dirty, `create` stores it and marks
  clean).  The region blend map (used only by the noise shader path) is not
  consulted by any storage query and is omitted.
-/

namespace Terrain3D

/-- C float-to-int conversion: truncation toward zero. -/
def cint (q : ℚ) : Int := if q < 0 then -Int.floor (-q) else Int.floor q

/-- Godot `Math::lerp(from, to, weight) = from + (to - from) * weight`. -/
def lerp (a b t : ℚ) : ℚ := a + (b - a) * t

/-- Godot `CLAMP(value, lo, hi)` macro. -/
def CLAMP (x lo hi : ℚ) : ℚ := if x < lo then lo else if x > hi then hi else x

/-- C `ABS` macro on integers. -/
def iabs (a : Int) : Int := if a < 0 then -a else a

/-- Godot `Vector2i`. -/
structure Vec2i where
  x : Int
  y : Int
deriving DecidableEq, Repr

def Vec2i.add (a b : Vec2i) : Vec2i := ⟨a.x + b.x, a.y + b.y⟩

instance : Add Vec2i := ⟨Vec2i.add⟩

/-- Godot `Vector3`, with exact rational coordinates. -/
structure Vec3 where
  x : ℚ
  y : ℚ
  z : ℚ
deriving DecidableEq, Repr

/-- Godot `Color`, with exact rational channels. -/
structure Color where
  r : ℚ
  g : ℚ
  b : ℚ
  a : ℚ
deriving DecidableEq, Repr

/-- `Terrain3DStorage::MapType`. -/
inductive MapType
  | TYPE_HEIGHT
  | TYPE_CONTROL
  | TYPE_COLOR
  | TYPE_MAX
deriving DecidableEq, Repr

/-- Godot `Error` values used by the storage (`OK`, `FAILED`). -/
inductive Error
  | OK
  | FAILED
deriving DecidableEq, Repr

/-- `Terrain3DEditor::Tool`. -/
inductive Tool
  | REGION
  | HEIGHT
  | TEXTURE
  | COLOR
deriving DecidableEq, Repr

/-- `Terrain3DEditor::Operation`. -/
inductive Operation
  | ADD
  | SUBTRACT
  | MULTIPLY
  | REPLACE
deriving DecidableEq, Repr

/-- Modelled from the spec: `REGION_MAP_SIZE` is declared in the storage
header, which is not among the provided sources.  The spec describes a small
fixed `REGION_MAP_SIZE x REGION_MAP_SIZE` region map and the generated shader
text in the source declares `uniform int region_map_size = 16`, so the header
constant is fixed to 16 here.  No claim below depends on the concrete value. -/
def REGION_MAP_SIZE : Int := 16

/-- `REGION_MAP_VSIZE / 2`, the centering offset used for region-map pixels. -/
def REGION_MAP_CENTER : Vec2i := ⟨REGION_MAP_SIZE / 2, REGION_MAP_SIZE / 2⟩

/-- Whether a pixel coordinate lies inside the fixed
`REGION_MAP_SIZE x REGION_MAP_SIZE` region-map image that `_update_regions`
creates (`Image::create(REGION_MAP_SIZE, REGION_MAP_SIZE, ...)`). -/
def in_image_bounds (p : Vec2i) : Prop :=
  (0 ≤ p.x ∧ p.x < REGION_MAP_SIZE) ∧ (0 ≤ p.y ∧ p.y < REGION_MAP_SIZE)

instance (p : Vec2i) : Decidable (in_image_bounds p) := by
  unfold in_image_bounds
  infer_instance

/-- The `FORMAT_RG8` red-channel codec of the host image library: a stored
value goes through `uint8(CLAMP(r * 255.0, 0, 255))` (C cast truncation) and
is read back as that byte over 255. -/
def quantize_rg8 (v : ℚ) : ℚ :=
  ((cint (CLAMP (v * 255) 0 255) : Int) : ℚ) / 255

/-- `Image::set_pixelv` on the region-map image: a write outside the image
bounds is rejected (no-op); an in-bounds write stores the RG8-quantized
value. -/
def set_pixelv (img : Vec2i → ℚ) (p : Vec2i) (v : ℚ) : Vec2i → ℚ :=
  fun q => if in_image_bounds p ∧ q = p then quantize_rg8 v else img q

/-- `Image::get_pixelv` on the region-map image: a read outside the image
bounds is rejected and yields the empty `Color` (red channel 0). -/
def get_pixelv (img : Vec2i → ℚ) (p : Vec2i) : ℚ :=
  if in_image_bounds p then img p else 0

/-- The pixel-writing loop of `_update_regions` (terrain_storage.cpp lines
898-903): for each region `i` the pixel at `offset + REGION_MAP_VSIZE / 2`
receives red channel `(i + 1) / 255`, through the bounds-checked quantizing
`set_pixelv`. -/
def region_map_pixels : List Vec2i → Int → (Vec2i → ℚ) → (Vec2i → ℚ)
  | [], _, img => img
  | ofs :: rest, i, img =>
      region_map_pixels rest (i + 1)
        (set_pixelv img (ofs + REGION_MAP_CENTER) (((i : ℚ) + 1) / 255))

/-- The region-map image rebuilt from scratch by `_update_regions`: a black
fill followed by one write per region offset. -/
def build_region_map (offsets : List Vec2i) : Vec2i → ℚ :=
  region_map_pixels offsets 0 (fun _ => 0)

/-- The state of `Terrain3DStorage` relevant to the claims.  Tiles are opaque
image ids; each layered `Generated` cache is represented by its dirty flag;
the region-map `Generated` by its retained image (present iff clean). -/
structure Terrain3DStorage where
  region_size : Int
  region_offsets : List Vec2i
  height_maps : List Nat
  control_maps : List Nat
  color_maps : List Nat
  generated_height_maps_dirty : Bool
  generated_control_maps_dirty : Bool
  generated_color_maps_dirty : Bool
  generated_region_map : Option (Vec2i → ℚ)

/-- `Terrain3DStorage::_get_offset_from` (lines 351-353):
`Vector2i((Vector2(x, z) / region_size + Vector2(0.5, 0.5)).floor())`. -/
def get_offset_from (st : Terrain3DStorage) (pos : Vec3) : Vec2i :=
  ⟨Int.floor (pos.x / (st.region_size : ℚ) + 1 / 2),
   Int.floor (pos.z / (st.region_size : ℚ) + 1 / 2)⟩

/-- The linear-scan fallback loop of `get_region_index` (lines 443-449):
first index whose stored offset equals `uv`, else `-1`. -/
def scan_offsets : List Vec2i → Int → Vec2i → Int
  | [], _, _ => -1
  | ofs :: rest, i, uv => if ofs = uv then i else scan_offsets rest (i + 1) uv

/-- `Terrain3DStorage::get_region_index` (lines 430-452): bounds check, then
O(1) lookup through the cached region-map image when it is valid, else the
linear scan over `region_offsets`. -/
def get_region_index (st : Terrain3DStorage) (pos : Vec3) : Int :=
  if iabs (get_offset_from st pos).x > REGION_MAP_SIZE / 2 ∨
     iabs (get_offset_from st pos).y > REGION_MAP_SIZE / 2 then -1
  else
    match st.generated_region_map with
    | some img =>
        cint (get_pixelv img (get_offset_from st pos + REGION_MAP_CENTER) *
          255) - 1
    | none => scan_offsets st.region_offsets 0 (get_offset_from st pos)

/-- The pure linear-scan reading of `get_region_index`: identical bounds
check, but always the fallback scan, never the cached image.  This is the
reference side of the C1 refinement equivalence. -/
def get_region_index_scan (st : Terrain3DStorage) (pos : Vec3) : Int :=
  if iabs (get_offset_from st pos).x > REGION_MAP_SIZE / 2 ∨
     iabs (get_offset_from st pos).y > REGION_MAP_SIZE / 2 then -1
  else scan_offsets st.region_offsets 0 (get_offset_from st pos)

/-- `Terrain3DStorage::has_region` (lines 426-428). -/
def has_region (st : Terrain3DStorage) (pos : Vec3) : Bool :=
  get_region_index st pos != -1

/-- The region-map cache is either cleared or holds exactly the image
`_update_regions` rebuilds from the current `region_offsets`.  Every state the
public operations produce satisfies this. -/
def region_map_consistent (st : Terrain3DStorage) : Prop :=
  st.generated_region_map = none ∨
  st.generated_region_map = some (build_region_map st.region_offsets)

/-- `Terrain3DStorage::_update_regions` (lines 873-926), restricted to the
state tracked here: each dirty layered cache is rebuilt (`Generated::create`
on an empty list clears instead, leaving it dirty), and a dirty region map is
rebuilt from `region_offsets`. -/
def update_regions (st : Terrain3DStorage) : Terrain3DStorage :=
  { st with
    generated_height_maps_dirty :=
      if st.generated_height_maps_dirty then st.height_maps.isEmpty else false,
    generated_control_maps_dirty :=
      if st.generated_control_maps_dirty then st.control_maps.isEmpty else false,
    generated_color_maps_dirty :=
      if st.generated_color_maps_dirty then st.color_maps.isEmpty else false,
    generated_region_map :=
      match st.generated_region_map with
      | some img => some img
      | none => some (build_region_map st.region_offsets) }

/-- The list and cache update a successful `add_region` performs just before
its `_update_regions` rebuild (lines 366-388): append the three fresh tiles
and the new offset, clear every derived cache. -/
def add_region_push (st : Terrain3DStorage) (fresh : Nat × Nat × Nat)
    (pos : Vec3) : Terrain3DStorage :=
  { st with
    height_maps := st.height_maps ++ [fresh.1],
    control_maps := st.control_maps ++ [fresh.2.1],
    color_maps := st.color_maps ++ [fresh.2.2],
    region_offsets := st.region_offsets ++ [get_offset_from st pos],
    generated_height_maps_dirty := true,
    generated_control_maps_dirty := true,
    generated_color_maps_dirty := true,
    generated_region_map := none }

/-- `Terrain3DStorage::add_region` (lines 355-394).  The three freshly created
and filled tiles are external image allocations, passed in as `fresh`. -/
def add_region (st : Terrain3DStorage) (fresh : Nat × Nat × Nat) (pos : Vec3) :
    Error × Terrain3DStorage :=
  if has_region st pos then (Error.FAILED, st)
  else if iabs (get_offset_from st pos).x > REGION_MAP_SIZE / 2 ∨
          iabs (get_offset_from st pos).y > REGION_MAP_SIZE / 2 then
    (Error.FAILED, st)
  else
    (Error.OK, update_regions (add_region_push st fresh pos))

/-- Modelled from the spec: `get_region_count` is an inline getter in the
storage header (not among the provided sources).  The source logs
`region_offsets.size()` as "Total regions" (line 381) and the spec's region
directory is the offset list, so the count is `region_offsets.length`. -/
def get_region_count (st : Terrain3DStorage) : Int :=
  st.region_offsets.length

/-- `Terrain3DStorage::remove_region` (lines 396-424): refuse when only one
region remains; no-op (error report) when the position resolves to no region;
otherwise erase index `i` from all four lists, clear the caches and rebuild. -/
def remove_region (st : Terrain3DStorage) (pos : Vec3) : Terrain3DStorage :=
  if get_region_count st = 1 then st
  else
    if get_region_index st pos = -1 then st
    else
      update_regions
        { st with
          region_offsets :=
            st.region_offsets.eraseIdx (get_region_index st pos).toNat,
          height_maps := st.height_maps.eraseIdx (get_region_index st pos).toNat,
          control_maps :=
            st.control_maps.eraseIdx (get_region_index st pos).toNat,
          color_maps := st.color_maps.eraseIdx (get_region_index st pos).toNat,
          generated_height_maps_dirty := true,
          generated_control_maps_dirty := true,
          generated_color_maps_dirty := true,
          generated_region_map := none }

/-- `Terrain3DStorage::set_map_region` (lines 463-490): bounds-checked
replacement of one tile; an out-of-range index is only a reported error.
Note: the source performs no cache invalidation here. -/
def set_map_region (st : Terrain3DStorage) (mt : MapType) (i : Int)
    (img : Nat) : Terrain3DStorage :=
  match mt with
  | MapType.TYPE_HEIGHT =>
      if 0 ≤ i ∧ i < st.height_maps.length then
        { st with height_maps := st.height_maps.set i.toNat img }
      else st
  | MapType.TYPE_CONTROL =>
      if 0 ≤ i ∧ i < st.control_maps.length then
        { st with control_maps := st.control_maps.set i.toNat img }
      else st
  | MapType.TYPE_COLOR =>
      if 0 ≤ i ∧ i < st.color_maps.length then
        { st with color_maps := st.color_maps.set i.toNat img }
      else st
  | MapType.TYPE_MAX => st

/-- `Terrain3DStorage::force_update_maps` (lines 596-614): clear the selected
generated cache (all three for `TYPE_MAX`), then `_update_regions`. -/
def force_update_maps (st : Terrain3DStorage) (mt : MapType) :
    Terrain3DStorage :=
  update_regions
    (match mt with
     | MapType.TYPE_HEIGHT => { st with generated_height_maps_dirty := true }
     | MapType.TYPE_CONTROL => { st with generated_control_maps_dirty := true }
     | MapType.TYPE_COLOR => { st with generated_color_maps_dirty := true }
     | MapType.TYPE_MAX =>
        { st with
          generated_height_maps_dirty := true,
          generated_control_maps_dirty := true,
          generated_color_maps_dirty := true })

/-- `Terrain3DStorage::set_height_maps` (lines 578-582). -/
def set_height_maps (st : Terrain3DStorage) (maps : List Nat) :
    Terrain3DStorage :=
  force_update_maps { st with height_maps := maps } MapType.TYPE_HEIGHT

/-- `Terrain3DStorage::set_control_maps` (lines 584-588). -/
def set_control_maps (st : Terrain3DStorage) (maps : List Nat) :
    Terrain3DStorage :=
  force_update_maps { st with control_maps := maps } MapType.TYPE_CONTROL

/-- `Terrain3DStorage::set_color_maps` (lines 590-594). -/
def set_color_maps (st : Terrain3DStorage) (maps : List Nat) :
    Terrain3DStorage :=
  force_update_maps { st with color_maps := maps } MapType.TYPE_COLOR

/-- `Terrain3DStorage::set_maps` (lines 522-537). -/
def set_maps (st : Terrain3DStorage) (mt : MapType) (maps : List Nat) :
    Terrain3DStorage :=
  match mt with
  | MapType.TYPE_HEIGHT => set_height_maps st maps
  | MapType.TYPE_CONTROL => set_control_maps st maps
  | MapType.TYPE_COLOR => set_color_maps st maps
  | MapType.TYPE_MAX => st

/-- `Terrain3DStorage::set_region_offsets` (lines 454-461). -/
def set_region_offsets (st : Terrain3DStorage) (arr : List Vec2i) :
    Terrain3DStorage :=
  update_regions
    { st with region_offsets := arr, generated_region_map := none }

/-- The spec invariant `len(height) = len(control) = len(color) = len(offsets)`. -/
def region_lists_aligned (st : Terrain3DStorage) : Prop :=
  st.height_maps.length = st.region_offsets.length ∧
  st.control_maps.length = st.region_offsets.length ∧
  st.color_maps.length = st.region_offsets.length

instance (st : Terrain3DStorage) : Decidable (region_lists_aligned st) := by
  unfold region_lists_aligned
  infer_instance

/-- The freshly constructed storage: no regions, no tiles, every derived cache
dirty and the region-map image not yet built (`Terrain3DStorage` constructor;
the default region size comes from the header, any legal power of two works). -/
def initial_storage : Terrain3DStorage :=
  { region_size := 1024
    region_offsets := []
    height_maps := []
    control_maps := []
    color_maps := []
    generated_height_maps_dirty := true
    generated_control_maps_dirty := true
    generated_color_maps_dirty := true
    generated_region_map := none }

/-- The state of `Terrain3DEditor` relevant to the claims.  The source stores
the Euclidean `operation_interval = p_global_position.distance_to(...)`; the
square of that distance is stored here (the square root of a rational is not
rational, the map is strictly monotone, and no embedded logic reads it). -/
structure Terrain3DEditor where
  tool : Tool
  operation : Operation
  brush_size : Int
  brush_auto_regions : Bool
  operation_position : Vec3
  operation_interval_sq : ℚ

/-- `Terrain3DEditor::_operate_region` (lines 89-102): on ADD create the
region when absent, on SUBTRACT remove it when present.  `has_region` is
evaluated once up front, exactly as in the source. -/
def operate_region (ed : Terrain3DEditor) (st : Terrain3DStorage)
    (fresh : Nat × Nat × Nat) (pos : Vec3) : Terrain3DStorage :=
  let hr := has_region st pos
  let st1 :=
    if ed.operation = Operation.ADD ∧ hr = false then (add_region st fresh pos).2
    else st
  if ed.operation = Operation.SUBTRACT ∧ hr = true then remove_region st1 pos
  else st1

/-- The brush footprint iteration order of `_operate_map` (lines 125-126):
`x` outer, `y` inner, both in `[0, size)`. -/
def brush_cells (s : Int) : List (Int × Int) :=
  (List.range s.toNat).flatMap
    (fun x => (List.range s.toNat).map (fun y => ((x : Int), (y : Int))))

/-- The world position of one footprint cell (lines 127-128):
`brush_offset = (x, y) - (s, s) / 2` with C integer division, added to the
stroke position on the XZ plane. -/
def brush_cell_position (s : Int) (pos : Vec3) (x y : Int) : Vec3 :=
  ⟨pos.x + ((x - Int.tdiv s 2 : Int) : ℚ), pos.y,
   pos.z + ((y - Int.tdiv s 2 : Int) : ℚ)⟩

/-- The storage-level effect of one footprint cell (lines 130-141): when the
cell's region is missing, either skip (auto-regions disabled) or attempt
`add_region`, continuing on failure.  Pixel writes do not change the storage
state tracked here. -/
def operate_map_cell (auto : Bool) (st : Terrain3DStorage)
    (fresh : Nat × Nat × Nat) (cpos : Vec3) : Terrain3DStorage :=
  if get_region_index st cpos = -1 then
    if auto then (add_region st fresh cpos).2 else st
  else st

/-- The storage-level effect of `Terrain3DEditor::_operate_map` (lines
104-219): bail out when the stroke center is outside every region, otherwise
run the footprint (possibly auto-creating regions cell by cell) and finish
with `force_update_maps` on the edited map type. -/
def operate_map (ed : Terrain3DEditor) (st : Terrain3DStorage) (mt : MapType)
    (fresh : Int × Int → Nat × Nat × Nat) (pos : Vec3) : Terrain3DStorage :=
  if get_region_index st pos = -1 then st
  else
    force_update_maps
      ((brush_cells ed.brush_size).foldl
        (fun acc c =>
          operate_map_cell ed.brush_auto_regions acc (fresh c)
            (brush_cell_position ed.brush_size pos c.1 c.2))
        st)
      mt

/-- `Terrain3DEditor::operate` (lines 48-79): refresh the interval and the
last-position tracker, then dispatch on the tool, gating on the
continuous-operation flag. -/
def operate (ed : Terrain3DEditor) (st : Terrain3DStorage)
    (fresh : Int × Int → Nat × Nat × Nat) (pos : Vec3) (camera : ℚ)
    (continuous : Bool) : Terrain3DEditor × Terrain3DStorage :=
  let base := if ed.operation_position = (⟨0, 0, 0⟩ : Vec3) then pos
              else ed.operation_position
  ({ ed with
      operation_interval_sq :=
        (pos.x - base.x) ^ 2 + (pos.y - base.y) ^ 2 + (pos.z - base.z) ^ 2,
      operation_position := pos },
   match ed.tool with
   | Tool.REGION =>
       if continuous then st else operate_region ed st (fresh (0, 0)) pos
   | Tool.HEIGHT =>
       if continuous then operate_map ed st MapType.TYPE_HEIGHT fresh pos else st
   | Tool.TEXTURE =>
       if continuous then operate_map ed st MapType.TYPE_CONTROL fresh pos else st
   | Tool.COLOR =>
       if continuous then operate_map ed st MapType.TYPE_COLOR fresh pos else st)

/-- `Terrain3DEditor::_is_in_bounds` (lines 221-225). -/
def is_in_bounds (p pmax : Vec2i) : Prop :=
  (0 ≤ p.x ∧ 0 ≤ p.y) ∧ (p.x < pmax.x ∧ p.y < pmax.y)

instance (p pmax : Vec2i) : Decidable (is_in_bounds p pmax) := by
  unfold is_in_bounds
  infer_instance

/-- `Terrain3DEditor::_get_uv_position` (lines 227-234): the fractional part
of `world_xz / region_size + 0.5`, componentwise. -/
def get_uv_position (gpos : Vec3) (region_size : Int) : ℚ × ℚ :=
  ⟨gpos.x / (region_size : ℚ) + 1 / 2 -
     ((Int.floor (gpos.x / (region_size : ℚ) + 1 / 2) : Int) : ℚ),
   gpos.z / (region_size : ℚ) + 1 / 2 -
     ((Int.floor (gpos.z / (region_size : ℚ) + 1 / 2) : Int) : ℚ)⟩

/-- `Terrain3DEditor::_rotate_uv` (lines 236-240), with the rotation given by
its cosine and sine values `c`, `sn` (the angle itself mixes an external
random draw and the camera direction; only the resulting coefficients enter
the arithmetic). -/
def rotate_uv (u v c sn : ℚ) : ℚ × ℚ :=
  ⟨CLAMP ((u - 1 / 2) * c - (v - 1 / 2) * sn + 1 / 2) 0 1,
   CLAMP ((u - 1 / 2) * sn + (v - 1 / 2) * c + 1 / 2) 0 1⟩

/-- The guarded pixel addressing of one footprint cell in `_operate_map`
(lines 148-158): the tile pixel written and the falloff-mask pixel sampled,
or `none` when either bounds check rejects the cell. -/
def operate_map_pixel_positions (region_size s : Int) (imgSize : Vec2i)
    (c sn : ℚ) (pos : Vec3) (x y : Int) : Option (Vec2i × Vec2i) :=
  let uv := get_uv_position (brush_cell_position s pos x y) region_size
  let mp : Vec2i := ⟨cint (uv.1 * (region_size : ℚ)), cint (uv.2 * (region_size : ℚ))⟩
  if is_in_bounds mp ⟨region_size, region_size⟩ then
    let r := rotate_uv ((x : ℚ) / (s : ℚ)) ((y : ℚ) / (s : ℚ)) c sn
    let bp : Vec2i := ⟨cint (r.1 * (imgSize.x : ℚ)), cint (r.2 * (imgSize.y : ℚ))⟩
    if is_in_bounds bp imgSize then some (mp, bp) else none
  else none

/-- The per-pixel blend kernel of `_operate_map` (lines 159-214): `dest`
starts as the source pixel; the HEIGHT and CONTROL map types have dedicated
branches, every other map type writes `dest` back unchanged.  `alpha` is the
gamma-curved falloff sample `pow(mask_sample, gamma)` computed upstream. -/
def operate_map_blend (mt : MapType) (op : Operation) (src : Color)
    (index : Int) (hgt alpha o : ℚ) : Color :=
  match mt with
  | MapType.TYPE_HEIGHT =>
      ⟨CLAMP
        (match op with
         | Operation.ADD => src.r + hgt * alpha * o
         | Operation.SUBTRACT => src.r - hgt * alpha * o
         | Operation.MULTIPLY => src.r * (alpha * hgt * o + 1)
         | Operation.REPLACE => lerp src.r hgt alpha) 0 1, 0, 0, 1⟩
  | MapType.TYPE_CONTROL =>
      match op with
      | Operation.ADD =>
          if cint (lerp ((cint (src.g * 255) : Int) : ℚ) ((index : Int) : ℚ)
                (if alpha < 1 / 10 then 0 else 1)) = cint (src.r * 255) then
            { src with
              b := lerp src.b 0 (if alpha < 1 / 10 then 0 else 1) }
          else
            { src with
              g := ((cint (lerp ((cint (src.g * 255) : Int) : ℚ)
                      ((index : Int) : ℚ)
                      (if alpha < 1 / 10 then 0 else 1)) : Int) : ℚ) / 255,
              b := lerp src.b (CLAMP (src.b + o * alpha) 0 1)
                     (if alpha < 1 / 10 then 0 else 1) }
      | Operation.REPLACE =>
          { src with
            r := ((cint (lerp ((cint (src.r * 255) : Int) : ℚ)
                    ((index : Int) : ℚ)
                    (if alpha < 1 / 10 then 0 else 1)) : Int) : ℚ) / 255,
            b := lerp src.b 0 (if alpha < 1 / 10 then 0 else 1) }
      | _ => src
  | _ => src

/-- Concrete two-region storage whose region-map cache has just been rebuilt
from its offsets. -/
def c1_state : Terrain3DStorage :=
  { region_size := 64
    region_offsets := [⟨0, 0⟩, ⟨2, 0⟩]
    height_maps := [10, 11]
    control_maps := [20, 21]
    color_maps := [30, 31]
    generated_height_maps_dirty := false
    generated_control_maps_dirty := false
    generated_color_maps_dirty := false
    generated_region_map := some (build_region_map [⟨0, 0⟩, ⟨2, 0⟩]) }

/-- Concrete storage holding one region at the boundary offset (8, 0) — which
the strict capacity check `ABS(offset) > REGION_MAP_SIZE / 2` admits — with
its region-map cache rebuilt from the offsets; the rebuild's pixel write at
(16, 8) falls outside the 16 x 16 image and is dropped. -/
def c1_boundary_state : Terrain3DStorage :=
  { region_size := 64
    region_offsets := [⟨8, 0⟩]
    height_maps := [1]
    control_maps := [2]
    color_maps := [3]
    generated_height_maps_dirty := false
    generated_control_maps_dirty := false
    generated_color_maps_dirty := false
    generated_region_map := some (build_region_map [⟨8, 0⟩]) }

/-- Concrete one-region storage. -/
def c3_state : Terrain3DStorage :=
  { region_size := 1024
    region_offsets := [⟨0, 0⟩]
    height_maps := [1]
    control_maps := [2]
    color_maps := [3]
    generated_height_maps_dirty := false
    generated_control_maps_dirty := false
    generated_color_maps_dirty := false
    generated_region_map := none }

/-- A concrete editor configuration used by witnesses. -/
def ed0 : Terrain3DEditor :=
  { tool := Tool.REGION
    operation := Operation.ADD
    brush_size := 1
    brush_auto_regions := false
    operation_position := ⟨0, 0, 0⟩
    operation_interval_sq := 0 }

/-- The storage reached by adding one region at the origin to a fresh
storage; its generated height cache has just been rebuilt, hence is clean. -/
def c5_state : Terrain3DStorage :=
  (add_region initial_storage (1, 2, 3) ⟨0, 0, 0⟩).2

theorem Vec2i.add_def (a b : Vec2i) : a + b = ⟨a.x + b.x, a.y + b.y⟩ := rfl

theorem vec2i_add_cancel {a b c : Vec2i} (h : a + c = b + c) : a = b := by
  cases a
  cases b
  cases c
  simp only [Vec2i.add_def, Vec2i.mk.injEq] at h ⊢
  omega

theorem cint_intCast (n : Int) : cint ((n : ℚ)) = n := by
  unfold cint
  split
  · rw [← Int.cast_neg, Int.floor_intCast]
    omega
  · rw [Int.floor_intCast]

theorem cint_div255 (k : Int) : cint (((k : ℚ) + 1) / 255 * 255) - 1 = k := by
  have h : ((k : ℚ) + 1) / 255 * 255 = ((k + 1 : Int) : ℚ) := by
    push_cast
    rw [div_mul_cancel₀ _ (by norm_num : (255 : ℚ) ≠ 0)]
  rw [h, cint_intCast]
  omega

theorem scan_offsets_not_mem (l : List Vec2i) (uv : Vec2i) :
    uv ∉ l → ∀ i : Int, scan_offsets l i uv = -1 := by
  induction l with
  | nil => intro _ i; rfl
  | cons a rest ih =>
    intro hm i
    have hne : ¬ a = uv := by
      intro he
      exact hm (by simp [he])
    have hm2 : uv ∉ rest := fun hr => hm (List.mem_cons_of_mem a hr)
    simp only [scan_offsets]
    rw [if_neg hne]
    exact ih hm2 (i + 1)

theorem scan_offsets_ge (l : List Vec2i) (uv : Vec2i) :
    uv ∈ l → ∀ i : Int, i ≤ scan_offsets l i uv := by
  induction l with
  | nil => intro hm; exact absurd hm (List.not_mem_nil uv)
  | cons a rest ih =>
    intro hm i
    simp only [scan_offsets]
    by_cases he : a = uv
    · rw [if_pos he]
    · rw [if_neg he]
      have hm2 : uv ∈ rest := by
        rcases List.mem_cons.mp hm with h | h
        · exact absurd h.symm he
        · exact h
      have := ih hm2 (i + 1)
      omega

theorem quantize_rg8_exact (n : Int) (h0 : 0 ≤ n) (h1 : n ≤ 255) :
    quantize_rg8 ((n : ℚ) / 255) = (n : ℚ) / 255 := by
  unfold quantize_rg8
  rw [div_mul_cancel₀ _ (by norm_num : (255 : ℚ) ≠ 0)]
  unfold CLAMP
  rw [if_neg (not_lt.mpr (by exact_mod_cast h0)),
      if_neg (not_lt.mpr (by exact_mod_cast h1))]
  rw [cint_intCast]

theorem cint_quantize_append (n : Int) (h0 : 0 ≤ n) :
    cint (quantize_rg8 (((n : ℚ) + 1) / 255) * 255) - 1 = min n 254 := by
  have hc : ((n : ℚ) + 1) / 255 = ((n + 1 : Int) : ℚ) / 255 := by
    push_cast
    ring
  rw [hc]
  have hclamp : CLAMP ((n + 1 : Int) : ℚ) 0 255 =
      ((min (n + 1) 255 : Int) : ℚ) := by
    unfold CLAMP
    split_ifs with ha hb
    · exact absurd ha (not_lt.mpr (by exact_mod_cast
        (by omega : (0 : Int) ≤ n + 1)))
    · have hx : (255 : Int) < n + 1 := by exact_mod_cast hb
      rw [show (255 : ℚ) = ((255 : Int) : ℚ) by norm_num]
      norm_cast
      omega
    · have hx : ¬((255 : Int) < n + 1) := fun hc2 => hb (by exact_mod_cast hc2)
      norm_cast
      omega
  have hq : quantize_rg8 (((n + 1 : Int) : ℚ) / 255) =
      ((min (n + 1) 255 : Int) : ℚ) / 255 := by
    unfold quantize_rg8
    rw [div_mul_cancel₀ _ (by norm_num : (255 : ℚ) ≠ 0), hclamp, cint_intCast]
  rw [hq, div_mul_cancel₀ _ (by norm_num : (255 : ℚ) ≠ 0), cint_intCast]
  omega

theorem region_map_pixels_not_mem (l : List Vec2i) (uv : Vec2i) :
    uv ∉ l → ∀ (i : Int) (img : Vec2i → ℚ),
      region_map_pixels l i img (uv + REGION_MAP_CENTER) =
        img (uv + REGION_MAP_CENTER) := by
  induction l with
  | nil => intro _ i img; rfl
  | cons a rest ih =>
    intro hm i img
    have hne : uv ≠ a := by
      intro he
      exact hm (by simp [he])
    have hm2 : uv ∉ rest := fun hr => hm (List.mem_cons_of_mem a hr)
    simp only [region_map_pixels]
    rw [ih hm2 (i + 1) _]
    simp only [set_pixelv]
    rw [if_neg (fun hA => hne (vec2i_add_cancel hA.2))]

theorem region_map_pixels_mem (l : List Vec2i) (uv : Vec2i) :
    l.Nodup → uv ∈ l → in_image_bounds (uv + REGION_MAP_CENTER) →
    ∀ (i : Int) (img : Vec2i → ℚ), 0 ≤ i → i + l.length ≤ 255 →
      region_map_pixels l i img (uv + REGION_MAP_CENTER) =
        (((scan_offsets l i uv : Int) : ℚ) + 1) / 255 := by
  induction l with
  | nil => intro _ hm; exact absurd hm (List.not_mem_nil uv)
  | cons a rest ih =>
    intro hnd hm hb i img hi hlen
    simp only [List.length_cons] at hlen
    simp only [region_map_pixels, scan_offsets]
    by_cases he : a = uv
    · rw [if_pos he]
      have hnr : uv ∉ rest := by
        have h2 := (List.nodup_cons.mp hnd).1
        rw [he] at h2
        exact h2
      rw [region_map_pixels_not_mem rest uv hnr (i + 1) _]
      simp only [set_pixelv]
      rw [he, if_pos ⟨hb, rfl⟩]
      rw [show ((i : ℚ) + 1) / 255 = ((i + 1 : Int) : ℚ) / 255 by
        push_cast; ring]
      rw [quantize_rg8_exact (i + 1) (by omega) (by omega)]
    · rw [if_neg he]
      have hm2 : uv ∈ rest := by
        rcases List.mem_cons.mp hm with h | h
        · exact absurd h.symm he
        · exact h
      exact ih (List.nodup_cons.mp hnd).2 hm2 hb (i + 1) _ (by omega)
        (by omega)

/-- C1 counterexample: the strict capacity check admits the boundary offset
(8, 0), but the rebuilt cache's pixel write for it targets (16, 8), outside
the 16 x 16 region-map image, and is dropped; at a position resolving to that
offset the cached lookup reads out of bounds and returns -1 while the linear
scan finds the region at index 0, so the two paths of `get_region_index`
disagree on a state whose cache was just rebuilt from its offsets. -/
theorem claim_C1_cache_scan_disagree_at_boundary :
    region_map_consistent c1_boundary_state ∧
    get_region_index c1_boundary_state ⟨512, 0, 0⟩ = -1 ∧
    get_region_index_scan c1_boundary_state ⟨512, 0, 0⟩ = 0 ∧
    get_region_index c1_boundary_state ⟨512, 0, 0⟩ ≠
      get_region_index_scan c1_boundary_state ⟨512, 0, 0⟩ := by
  have hofs : get_offset_from c1_boundary_state ⟨512, 0, 0⟩ = ⟨8, 0⟩ := by
    unfold get_offset_from c1_boundary_state
    norm_num [Vec2i.mk.injEq]
  have himg : c1_boundary_state.generated_region_map =
      some (build_region_map [(⟨8, 0⟩ : Vec2i)]) := rfl
  have hpix : get_pixelv (build_region_map [(⟨8, 0⟩ : Vec2i)])
      ((⟨8, 0⟩ : Vec2i) + REGION_MAP_CENTER) = 0 := by
    rw [show (⟨8, 0⟩ : Vec2i) + REGION_MAP_CENTER = ⟨16, 8⟩ from by decide]
    unfold get_pixelv
    rw [if_neg (by decide : ¬ in_image_bounds (⟨16, 8⟩ : Vec2i))]
  have hcached : get_region_index c1_boundary_state ⟨512, 0, 0⟩ = -1 := by
    unfold get_region_index
    rw [hofs]
    rw [if_neg (by decide)]
    simp only [himg]
    rw [hpix]
    norm_num [cint]
  have hscan : get_region_index_scan c1_boundary_state ⟨512, 0, 0⟩ = 0 := by
    unfold get_region_index_scan
    rw [hofs]
    rw [if_neg (by decide)]
    decide
  exact ⟨Or.inr rfl, hcached, hscan, by rw [hcached, hscan]; decide⟩

/-- C1 (amended): for every storage state whose region-map cache is either
cleared or freshly rebuilt from the current offsets (the only cache states
the public operations produce), whose offsets are pairwise distinct, number
at most 255 (the RG8 index channel clamps above that), and all map to pixels
inside the 16 x 16 region-map image (components in [-8, 7]),
`get_region_index` returns the same index through the cached RegionMap image
as through the linear scan over `region_offsets`, at every world position —
both immediately before (cache cleared) and immediately after (cache
rebuilt) any cache invalidation.  Boundary offsets with a component equal to
+REGION_MAP_SIZE/2, which the strict capacity check also admits, are
excluded: there the rebuild's pixel write lands outside the image and the
two paths disagree (see the counterexample). -/
theorem claim_C1_region_index_cache_agrees_with_scan (st : Terrain3DStorage)
    (pos : Vec3) (hnd : st.region_offsets.Nodup)
    (hc : region_map_consistent st)
    (hlen : st.region_offsets.length ≤ 255)
    (hins : ∀ o ∈ st.region_offsets, in_image_bounds (o + REGION_MAP_CENTER)) :
    get_region_index st pos = get_region_index_scan st pos := by
  rcases hc with h | h
  · unfold get_region_index get_region_index_scan
    simp only [h]
  · unfold get_region_index get_region_index_scan
    simp only [h]
    split_ifs with hcap
    · rfl
    · by_cases hm : get_offset_from st pos ∈ st.region_offsets
      · have hb := hins _ hm
        unfold get_pixelv
        rw [if_pos hb]
        unfold build_region_map
        rw [region_map_pixels_mem st.region_offsets _ hnd hm hb 0 _
          (by omega) (by omega)]
        exact cint_div255 _
      · rw [scan_offsets_not_mem st.region_offsets _ hm 0]
        unfold get_pixelv
        split_ifs with hbq
        · unfold build_region_map
          rw [region_map_pixels_not_mem st.region_offsets _ hm 0 _]
          norm_num [cint]
        · norm_num [cint]

/-- C1 witness: a concrete two-region storage with interior offsets and the
cache image present; the cached lookup and the linear scan agree at a
concrete position. -/
theorem claim_C1_region_index_cache_agrees_with_scan_witness :
    c1_state.region_offsets.Nodup ∧ region_map_consistent c1_state ∧
    c1_state.region_offsets.length ≤ 255 ∧
    (∀ o ∈ c1_state.region_offsets,
      in_image_bounds (o + REGION_MAP_CENTER)) ∧
    get_region_index c1_state ⟨100, 0, 0⟩ =
      get_region_index_scan c1_state ⟨100, 0, 0⟩ :=
  ⟨by decide, Or.inr rfl, by decide, by decide,
   claim_C1_region_index_cache_agrees_with_scan c1_state ⟨100, 0, 0⟩
     (by decide) (Or.inr rfl) (by decide) (by decide)⟩

theorem region_map_pixels_append (l : List Vec2i) (uv : Vec2i)
    (hb : in_image_bounds (uv + REGION_MAP_CENTER)) :
    ∀ (i : Int) (img : Vec2i → ℚ),
      region_map_pixels (l ++ [uv]) i img (uv + REGION_MAP_CENTER) =
        quantize_rg8 ((((i + l.length : Int) : ℚ) + 1) / 255) := by
  induction l with
  | nil =>
    intro i img
    simp only [List.nil_append, List.length_nil, region_map_pixels,
      set_pixelv]
    rw [if_pos (⟨hb, trivial⟩ : in_image_bounds (uv + REGION_MAP_CENTER) ∧
      True)]
    congr 1
    push_cast
    ring
  | cons a rest ih =>
    intro i img
    simp only [List.cons_append, List.length_cons, region_map_pixels,
      List.append_eq]
    rw [ih (i + 1) _]
    congr 1
    push_cast
    ring

theorem get_region_index_after_add (st : Terrain3DStorage)
    (f : Nat × Nat × Nat) (pos : Vec3)
    (hcap : ¬(iabs (get_offset_from st pos).x > REGION_MAP_SIZE / 2 ∨
              iabs (get_offset_from st pos).y > REGION_MAP_SIZE / 2))
    (hb : in_image_bounds (get_offset_from st pos + REGION_MAP_CENTER)) :
    get_region_index (update_regions (add_region_push st f pos)) pos =
      min (st.region_offsets.length : Int) 254 := by
  have hofs : get_offset_from (update_regions (add_region_push st f pos)) pos =
      get_offset_from st pos := rfl
  have himg :
      (update_regions (add_region_push st f pos)).generated_region_map =
        some (build_region_map
          (st.region_offsets ++ [get_offset_from st pos])) := rfl
  unfold get_region_index
  simp only [hofs, himg]
  rw [if_neg hcap]
  unfold get_pixelv
  rw [if_pos hb]
  unfold build_region_map
  rw [region_map_pixels_append st.region_offsets (get_offset_from st pos) hb
    0 _]
  have h2 := cint_quantize_append (0 + (st.region_offsets.length : Int))
    (by omega)
  rw [h2]
  omega

/-- C3: whenever exactly one region exists, `remove_region` returns the state
unchanged for every position argument — the region directory, the three tile
lists and the region count are untouched, so at least one region always
survives. -/
theorem claim_C3_last_region_noop (st : Terrain3DStorage) (pos : Vec3)
    (h : get_region_count st = 1) : remove_region st pos = st := by
  unfold remove_region
  rw [if_pos h]

/-- C3 witness: a concrete one-region storage is untouched by `remove_region`
at an arbitrary position. -/
theorem claim_C3_last_region_noop_witness :
    get_region_count c3_state = 1 ∧
    remove_region c3_state ⟨777, 0, -5⟩ = c3_state :=
  ⟨by decide, claim_C3_last_region_noop c3_state ⟨777, 0, -5⟩ (by decide)⟩

/-- C4 counterexample: at a position whose region offset has component
+REGION_MAP_SIZE/2 = 8 — admitted by the strict capacity check — the first
`add_region` succeeds but its region-map rebuild writes pixel (16, 8),
outside the 16 x 16 image, and the write is dropped; the second `add_region`
at the same position then reads out of bounds, sees no region, and also
returns OK, appending a duplicate offset: the state changes twice and the
second call does not fail, refuting the claim as stated. -/
theorem claim_C4_second_add_succeeds_at_boundary :
    (add_region initial_storage (1, 2, 3) ⟨8192, 0, 0⟩).1 = Error.OK ∧
    (add_region (add_region initial_storage (1, 2, 3) ⟨8192, 0, 0⟩).2
        (4, 5, 6) ⟨8192, 0, 0⟩).1 = Error.OK ∧
    (add_region (add_region initial_storage (1, 2, 3) ⟨8192, 0, 0⟩).2
        (4, 5, 6) ⟨8192, 0, 0⟩).2.region_offsets =
      [⟨8, 0⟩, ⟨8, 0⟩] := by
  have hofs0 : get_offset_from initial_storage ⟨8192, 0, 0⟩ = ⟨8, 0⟩ := by
    unfold get_offset_from initial_storage
    norm_num [Vec2i.mk.injEq]
  have hnrF : has_region initial_storage ⟨8192, 0, 0⟩ = false := by
    unfold has_region get_region_index
    rw [hofs0]
    norm_num [iabs, REGION_MAP_SIZE, initial_storage, scan_offsets]
  have hnr0 : ¬(has_region initial_storage ⟨8192, 0, 0⟩ = true) := by
    rw [hnrF]
    simp
  have hcap0 : ¬(iabs (get_offset_from initial_storage ⟨8192, 0, 0⟩).x >
        REGION_MAP_SIZE / 2 ∨
      iabs (get_offset_from initial_storage ⟨8192, 0, 0⟩).y >
        REGION_MAP_SIZE / 2) := by
    rw [hofs0]
    decide
  have hadd1 : add_region initial_storage (1, 2, 3) ⟨8192, 0, 0⟩ =
      (Error.OK, update_regions (add_region_push initial_storage (1, 2, 3)
        ⟨8192, 0, 0⟩)) := by
    unfold add_region
    rw [if_neg hnr0, if_neg hcap0]
  have hofs1 : get_offset_from
      (update_regions (add_region_push initial_storage (1, 2, 3)
        ⟨8192, 0, 0⟩)) ⟨8192, 0, 0⟩ = ⟨8, 0⟩ := by
    rw [show get_offset_from (update_regions (add_region_push initial_storage
        (1, 2, 3) ⟨8192, 0, 0⟩)) ⟨8192, 0, 0⟩ =
      get_offset_from initial_storage ⟨8192, 0, 0⟩ from rfl, hofs0]
  have himg1 : (update_regions (add_region_push initial_storage (1, 2, 3)
      ⟨8192, 0, 0⟩)).generated_region_map =
        some (build_region_map [(⟨8, 0⟩ : Vec2i)]) := by
    rw [show (update_regions (add_region_push initial_storage (1, 2, 3)
        ⟨8192, 0, 0⟩)).generated_region_map =
      some (build_region_map (initial_storage.region_offsets ++
        [get_offset_from initial_storage ⟨8192, 0, 0⟩])) from rfl, hofs0]
    simp [initial_storage]
  have hpix : get_pixelv (build_region_map [(⟨8, 0⟩ : Vec2i)])
      ((⟨8, 0⟩ : Vec2i) + REGION_MAP_CENTER) = 0 := by
    rw [show (⟨8, 0⟩ : Vec2i) + REGION_MAP_CENTER = ⟨16, 8⟩ from by decide]
    unfold get_pixelv
    rw [if_neg (by decide : ¬ in_image_bounds (⟨16, 8⟩ : Vec2i))]
  have hidx1 : get_region_index (update_regions (add_region_push
      initial_storage (1, 2, 3) ⟨8192, 0, 0⟩)) ⟨8192, 0, 0⟩ = -1 := by
    unfold get_region_index
    rw [hofs1]
    rw [if_neg (by decide)]
    simp only [himg1]
    rw [hpix]
    norm_num [cint]
  have hnr1 : ¬(has_region (update_regions (add_region_push initial_storage
      (1, 2, 3) ⟨8192, 0, 0⟩)) ⟨8192, 0, 0⟩ = true) := by
    unfold has_region
    rw [hidx1]
    simp
  have hcap1 : ¬(iabs (get_offset_from (update_regions (add_region_push
        initial_storage (1, 2, 3) ⟨8192, 0, 0⟩)) ⟨8192, 0, 0⟩).x >
        REGION_MAP_SIZE / 2 ∨
      iabs (get_offset_from (update_regions (add_region_push initial_storage
        (1, 2, 3) ⟨8192, 0, 0⟩)) ⟨8192, 0, 0⟩).y > REGION_MAP_SIZE / 2) := by
    rw [hofs1]
    decide
  have hadd2 : add_region (update_regions (add_region_push initial_storage
      (1, 2, 3) ⟨8192, 0, 0⟩)) (4, 5, 6) ⟨8192, 0, 0⟩ =
      (Error.OK, update_regions (add_region_push (update_regions
        (add_region_push initial_storage (1, 2, 3) ⟨8192, 0, 0⟩)) (4, 5, 6)
        ⟨8192, 0, 0⟩)) := by
    unfold add_region
    rw [if_neg hnr1, if_neg hcap1]
  refine ⟨by rw [hadd1], ?_, ?_⟩
  · rw [hadd1]
    show (add_region (update_regions (add_region_push initial_storage
      (1, 2, 3) ⟨8192, 0, 0⟩)) (4, 5, 6) ⟨8192, 0, 0⟩).1 = Error.OK
    rw [hadd2]
  · rw [hadd1]
    show (add_region (update_regions (add_region_push initial_storage
      (1, 2, 3) ⟨8192, 0, 0⟩)) (4, 5, 6) ⟨8192, 0, 0⟩).2.region_offsets = _
    rw [hadd2]
    show ((update_regions (add_region_push initial_storage (1, 2, 3)
        ⟨8192, 0, 0⟩)).region_offsets ++
      [get_offset_from (update_regions (add_region_push initial_storage
        (1, 2, 3) ⟨8192, 0, 0⟩)) ⟨8192, 0, 0⟩]) = _
    rw [hofs1]
    show ((initial_storage.region_offsets ++
      [get_offset_from initial_storage ⟨8192, 0, 0⟩]) ++ [⟨8, 0⟩]) = _
    rw [hofs0]
    simp [initial_storage]

/-- C4 (amended): a failing `add_region` call leaves the storage exactly
unchanged (this covers both the already-exists rejection and the
half-REGION_MAP_SIZE capacity rejection, the only failure paths), and after a
successful `add_region` at a position whose region-map pixel lies inside the
16 x 16 image (offset components in [-8, 7]), a second `add_region` at the
same position fails and returns the state exactly as the first call left it.
At the boundary offsets with a component equal to +REGION_MAP_SIZE/2 — which
the strict capacity check also admits — the rebuilt cache's pixel write is
dropped and the second call wrongly succeeds (see the counterexample). -/
theorem claim_C4_add_region_idempotent (st : Terrain3DStorage)
    (f1 f2 : Nat × Nat × Nat) (pos : Vec3) :
    ((add_region st f1 pos).1 = Error.FAILED →
      (add_region st f1 pos).2 = st) ∧
    (in_image_bounds (get_offset_from st pos + REGION_MAP_CENTER) →
      (add_region st f1 pos).1 = Error.OK →
      add_region (add_region st f1 pos).2 f2 pos =
        (Error.FAILED, (add_region st f1 pos).2)) := by
  constructor
  · intro h
    unfold add_region at h ⊢
    split_ifs at h ⊢
    · rfl
    · rfl
  · intro hb h
    unfold add_region at h
    split_ifs at h with h1 h2
    have hfst : add_region st f1 pos =
        (Error.OK, update_regions (add_region_push st f1 pos)) := by
      unfold add_region
      rw [if_neg h1, if_neg h2]
    rw [hfst]
    have hidx := get_region_index_after_add st f1 pos h2 hb
    have hr : has_region (update_regions (add_region_push st f1 pos)) pos =
        true := by
      unfold has_region
      rw [hidx]
      simp only [bne_iff_ne, ne_eq]
      have h0 : (0 : Int) ≤ min (st.region_offsets.length : Int) 254 :=
        le_min (Int.natCast_nonneg _) (by norm_num)
      omega
    unfold add_region
    rw [if_pos hr]

/-- C4 witness: adding a region at the origin (an interior offset) of a
fresh storage succeeds; repeating the call fails and returns the
intermediate state unchanged. -/
theorem claim_C4_add_region_idempotent_witness :
    (add_region initial_storage (1, 2, 3) ⟨0, 0, 0⟩).1 = Error.OK ∧
    add_region (add_region initial_storage (1, 2, 3) ⟨0, 0, 0⟩).2 (4, 5, 6)
        ⟨0, 0, 0⟩ =
      (Error.FAILED, (add_region initial_storage (1, 2, 3) ⟨0, 0, 0⟩).2) ∧
    (add_region (add_region initial_storage (1, 2, 3) ⟨0, 0, 0⟩).2 (4, 5, 6)
        ⟨0, 0, 0⟩).2 =
      (add_region initial_storage (1, 2, 3) ⟨0, 0, 0⟩).2 :=
  have hofs : get_offset_from initial_storage ⟨0, 0, 0⟩ = ⟨0, 0⟩ := by
    unfold get_offset_from initial_storage
    norm_num [Vec2i.mk.injEq]
  have h1 : (add_region initial_storage (1, 2, 3) ⟨0, 0, 0⟩).1 = Error.OK := by
    unfold add_region has_region get_region_index
    rw [hofs]
    norm_num [iabs, REGION_MAP_SIZE, initial_storage, scan_offsets]
  have hb : in_image_bounds (get_offset_from initial_storage ⟨0, 0, 0⟩ +
      REGION_MAP_CENTER) := by
    rw [hofs]
    decide
  have h2 :=
    (claim_C4_add_region_idempotent initial_storage (1, 2, 3) (4, 5, 6)
      ⟨0, 0, 0⟩).2 hb h1
  ⟨h1, h2,
   (claim_C4_add_region_idempotent (add_region initial_storage (1, 2, 3)
       ⟨0, 0, 0⟩).2 (4, 5, 6) (4, 5, 6) ⟨0, 0, 0⟩).1 (by rw [h2])⟩

/-- C9: every call of `operate` with `is_continuous = false` (the start of a
new stroke) ends with the internal last-position tracker equal to the given
world position, regardless of the tracker's previous value. -/
theorem claim_C9_operate_sets_tracker (ed : Terrain3DEditor)
    (st : Terrain3DStorage) (fresh : Int × Int → Nat × Nat × Nat)
    (pos : Vec3) (camera : ℚ) :
    ((operate ed st fresh pos camera false).1).operation_position = pos := rfl

theorem length_eraseIdx_congr {α β : Type} (l1 : List α) :
    ∀ (l2 : List β) (n : Nat), l1.length = l2.length →
      (l1.eraseIdx n).length = (l2.eraseIdx n).length := by
  induction l1 with
  | nil =>
    intro l2 n h
    cases l2 with
    | nil => rfl
    | cons b bs => simp at h
  | cons a as ih =>
    intro l2 n h
    cases l2 with
    | nil => simp at h
    | cons b bs =>
      cases n with
      | zero =>
        simp only [List.eraseIdx]
        simp only [List.length_cons] at h
        omega
      | succ m =>
        simp only [List.eraseIdx, List.length_cons]
        have h2 := ih bs m (by simp only [List.length_cons] at h; omega)
        omega

theorem aligned_update_regions (st : Terrain3DStorage)
    (h : region_lists_aligned st) :
    region_lists_aligned (update_regions st) := h

theorem aligned_add_region (st : Terrain3DStorage) (f : Nat × Nat × Nat)
    (pos : Vec3) (h : region_lists_aligned st) :
    region_lists_aligned (add_region st f pos).2 := by
  unfold add_region
  split_ifs
  · exact h
  · exact h
  · obtain ⟨ha, hb, hc⟩ := h
    unfold region_lists_aligned update_regions add_region_push
    simp only [List.length_append, List.length_singleton]
    refine ⟨?_, ?_, ?_⟩ <;> omega

theorem aligned_remove_region (st : Terrain3DStorage) (pos : Vec3)
    (h : region_lists_aligned st) :
    region_lists_aligned (remove_region st pos) := by
  unfold remove_region
  split_ifs
  · exact h
  · exact h
  · obtain ⟨ha, hb, hc⟩ := h
    unfold region_lists_aligned
    exact ⟨length_eraseIdx_congr _ _ _ ha, length_eraseIdx_congr _ _ _ hb,
           length_eraseIdx_congr _ _ _ hc⟩

theorem aligned_set_map_region (st : Terrain3DStorage) (mt : MapType)
    (i : Int) (img : Nat) (h : region_lists_aligned st) :
    region_lists_aligned (set_map_region st mt i img) := by
  obtain ⟨ha, hb, hc⟩ := h
  cases mt with
  | TYPE_HEIGHT =>
    simp only [set_map_region]
    split_ifs
    · exact ⟨by simpa using ha, hb, hc⟩
    · exact ⟨ha, hb, hc⟩
  | TYPE_CONTROL =>
    simp only [set_map_region]
    split_ifs
    · exact ⟨ha, by simpa using hb, hc⟩
    · exact ⟨ha, hb, hc⟩
  | TYPE_COLOR =>
    simp only [set_map_region]
    split_ifs
    · exact ⟨ha, hb, by simpa using hc⟩
    · exact ⟨ha, hb, hc⟩
  | TYPE_MAX => exact ⟨ha, hb, hc⟩

theorem aligned_force_update_maps (st : Terrain3DStorage) (mt : MapType)
    (h : region_lists_aligned st) :
    region_lists_aligned (force_update_maps st mt) := by
  cases mt <;> exact h

theorem aligned_operate_map_cell (auto : Bool) (st : Terrain3DStorage)
    (f : Nat × Nat × Nat) (cpos : Vec3) (h : region_lists_aligned st) :
    region_lists_aligned (operate_map_cell auto st f cpos) := by
  unfold operate_map_cell
  split_ifs
  · exact aligned_add_region st f cpos h
  · exact h
  · exact h

theorem aligned_foldl {β : Type} (f : Terrain3DStorage → β → Terrain3DStorage)
    (hf : ∀ s b, region_lists_aligned s → region_lists_aligned (f s b)) :
    ∀ (l : List β) (st : Terrain3DStorage), region_lists_aligned st →
      region_lists_aligned (l.foldl f st) := by
  intro l
  induction l with
  | nil => intro st h; exact h
  | cons b bs ih => intro st h; exact ih (f st b) (hf st b h)

theorem aligned_operate_map (ed : Terrain3DEditor) (st : Terrain3DStorage)
    (mt : MapType) (fresh : Int × Int → Nat × Nat × Nat) (pos : Vec3)
    (h : region_lists_aligned st) :
    region_lists_aligned (operate_map ed st mt fresh pos) := by
  unfold operate_map
  split_ifs
  · exact h
  · exact aligned_force_update_maps _ mt
      (aligned_foldl _
        (fun s c hs => aligned_operate_map_cell _ s _ _ hs) _ st h)

theorem aligned_operate_region (ed : Terrain3DEditor) (st : Terrain3DStorage)
    (f : Nat × Nat × Nat) (pos : Vec3) (h : region_lists_aligned st) :
    region_lists_aligned (operate_region ed st f pos) := by
  simp only [operate_region]
  split_ifs <;>
    first
      | exact h
      | exact aligned_add_region st f pos h
      | exact aligned_remove_region _ pos h
      | exact aligned_remove_region _ pos (aligned_add_region st f pos h)

theorem aligned_operate (ed : Terrain3DEditor) (st : Terrain3DStorage)
    (fresh : Int × Int → Nat × Nat × Nat) (pos : Vec3) (camera : ℚ)
    (cont : Bool) (h : region_lists_aligned st) :
    region_lists_aligned (operate ed st fresh pos camera cont).2 := by
  obtain ⟨tool, op, bsz, bar, opos, oint⟩ := ed
  cases tool <;> simp only [operate] <;> split_ifs <;>
    first
      | exact h
      | exact aligned_operate_region _ st _ pos h
      | exact aligned_operate_map _ st _ fresh pos h

/-- C2 counterexample: the claim quantifies over all public operations
including the map setters, but the wholesale setter `set_height_maps`
installs the caller's list as-is: applied to the freshly constructed (and
aligned) storage with a one-element list it yields a state with one height
tile and zero region offsets, violating the equal-length invariant. -/
theorem claim_C2_wholesale_setter_breaks_alignment :
    region_lists_aligned initial_storage ∧
    ¬ region_lists_aligned (set_height_maps initial_storage [7]) := by
  constructor
  · exact ⟨rfl, rfl, rfl⟩
  · intro hcon
    obtain ⟨ha, hb, hc⟩ := hcon
    simp [set_height_maps, force_update_maps, update_regions,
      initial_storage] at ha

/-- C2 (amended): in every state reachable through `add_region`,
`remove_region`, `operate` and the per-region accessor `set_map_region`, the
four parallel lists keep equal lengths — each of these operations preserves
the invariant.  The wholesale list setters are excluded: they install the
caller's list unchecked and can break the equality. -/
theorem claim_C2_amended_core_ops_preserve_alignment (st : Terrain3DStorage)
    (h : region_lists_aligned st) (ed : Terrain3DEditor)
    (f : Nat × Nat × Nat) (fresh : Int × Int → Nat × Nat × Nat) (pos : Vec3)
    (camera : ℚ) (cont : Bool) (mt : MapType) (i : Int) (img : Nat) :
    region_lists_aligned (add_region st f pos).2 ∧
    region_lists_aligned (remove_region st pos) ∧
    region_lists_aligned (set_map_region st mt i img) ∧
    region_lists_aligned (operate ed st fresh pos camera cont).2 :=
  ⟨aligned_add_region st f pos h, aligned_remove_region st pos h,
   aligned_set_map_region st mt i img h,
   aligned_operate ed st fresh pos camera cont h⟩

/-- C2 witness: the four core operations applied to a concrete aligned
two-region storage all yield aligned states. -/
theorem claim_C2_amended_core_ops_preserve_alignment_witness :
    region_lists_aligned (add_region c1_state (7, 8, 9) ⟨500, 0, 0⟩).2 ∧
    region_lists_aligned (remove_region c1_state ⟨500, 0, 0⟩) ∧
    region_lists_aligned (set_map_region c1_state MapType.TYPE_HEIGHT 0 42) ∧
    region_lists_aligned
      (operate ed0 c1_state (fun _ => (7, 8, 9)) ⟨500, 0, 0⟩ 0 false).2 :=
  claim_C2_amended_core_ops_preserve_alignment c1_state (by decide) ed0
    (7, 8, 9) (fun _ => (7, 8, 9)) ⟨500, 0, 0⟩ 0 false MapType.TYPE_HEIGHT 0 42

theorem c5_state_eq :
    c5_state =
      { region_size := 1024
        region_offsets := [⟨0, 0⟩]
        height_maps := [1]
        control_maps := [2]
        color_maps := [3]
        generated_height_maps_dirty := false
        generated_control_maps_dirty := false
        generated_color_maps_dirty := false
        generated_region_map := some (build_region_map [⟨0, 0⟩]) } := by
  have hofs : get_offset_from initial_storage ⟨0, 0, 0⟩ = ⟨0, 0⟩ := by
    unfold get_offset_from initial_storage
    norm_num [Vec2i.mk.injEq]
  have hnr : has_region initial_storage ⟨0, 0, 0⟩ = false := by
    unfold has_region get_region_index
    rw [hofs]
    norm_num [iabs, REGION_MAP_SIZE, initial_storage, scan_offsets]
  have h1 : ¬(has_region initial_storage ⟨0, 0, 0⟩ = true) := by
    rw [hnr]
    simp
  have h2 : ¬(iabs (get_offset_from initial_storage ⟨0, 0, 0⟩).x >
        REGION_MAP_SIZE / 2 ∨
      iabs (get_offset_from initial_storage ⟨0, 0, 0⟩).y >
        REGION_MAP_SIZE / 2) := by
    rw [hofs]
    norm_num [iabs, REGION_MAP_SIZE]
  have hadd : add_region initial_storage (1, 2, 3) ⟨0, 0, 0⟩ =
      (Error.OK,
        update_regions (add_region_push initial_storage (1, 2, 3)
          ⟨0, 0, 0⟩)) := by
    unfold add_region
    rw [if_neg h1, if_neg h2]
  unfold c5_state
  rw [hadd]
  show update_regions (add_region_push initial_storage (1, 2, 3) ⟨0, 0, 0⟩) = _
  unfold update_regions add_region_push
  rw [hofs]
  unfold initial_storage
  simp

/-- C5: the claim states that replacing a region's tile through `set_map`
(`set_map_region`) marks that map type's generated-texture cache dirty before
any subsequent read.  The source performs no invalidation in
`set_map_region`: at the reachable state `c5_state` (one region, height cache
just rebuilt hence clean) the accessor replaces tile 0 of the height maps,
yet the height cache's dirty flag stays `false` — a clean cache coexists with
a tile replaced through this accessor.  The spec's invariant (every raster
mutation dirties the corresponding cache; the wholesale setters do exactly
that via `force_update_maps`) is the evident intent, so the code is the
slip. -/
theorem claim_C5_set_map_region_leaves_cache_clean :
    c5_state.generated_height_maps_dirty = false ∧
    (set_map_region c5_state MapType.TYPE_HEIGHT 0 99).height_maps ≠
      c5_state.height_maps ∧
    (set_map_region c5_state MapType.TYPE_HEIGHT 0 99).generated_height_maps_dirty =
      false := by
  rw [c5_state_eq]
  decide

/-- C6 counterexample: the source brush has no COLOR branch and no tint
parameter, so on a COLOR-map pixel with positive mix factor (falloff alpha
1, opacity 1) and nontrivial stored color the written pixel equals the
source pixel exactly, refuting the claimed alpha-weighted RGB blend toward a
brush tint. -/
theorem claim_C6_color_blend_counterexample :
    operate_map_blend MapType.TYPE_COLOR Operation.ADD
      ⟨1 / 5, 3 / 10, 2 / 5, 1⟩ 3 (1 / 2) 1 1 = ⟨1 / 5, 3 / 10, 2 / 5, 1⟩ :=
  rfl

/-- C6 (amended): for the COLOR map type the brush write is the identity on
the pixel value: `_operate_map` initializes `dest` to the source pixel and
has no COLOR-specific branch, so every footprint pixel that passes the
bounds checks is written back unchanged, for every operation, surface index,
falloff and opacity. -/
theorem claim_C6_amended_color_write_is_identity (op : Operation)
    (src : Color) (index : Int) (hgt alpha o : ℚ) :
    operate_map_blend MapType.TYPE_COLOR op src index hgt alpha o = src :=
  rfl

theorem CLAMP_eq_self (x : ℚ) (h0 : 0 ≤ x) (h1 : x ≤ 1) : CLAMP x 0 1 = x := by
  unfold CLAMP
  rw [if_neg (not_lt.mpr h0), if_neg (not_lt.mpr h1)]

/-- C7: HEIGHT-map blend semantics: ADD stores `src + h*alpha*o`, SUBTRACT
`src - h*alpha*o`, MULTIPLY `src*(alpha*h*o + 1)`, REPLACE
`lerp(src, h, alpha)`, each clamped to [0, 1]; consequently REPLACE at
alpha = 1 (which gamma = 1 leaves as the raw mask sample) stores exactly the
height target clamped to [0, 1], and every operation at alpha = 0 leaves the
stored (in-range) height value unchanged. -/
theorem claim_C7_height_blend_formulas (src : Color) (index : Int)
    (hgt alpha o : ℚ) :
    (operate_map_blend MapType.TYPE_HEIGHT Operation.ADD src index hgt alpha
        o).r = CLAMP (src.r + hgt * alpha * o) 0 1 ∧
    (operate_map_blend MapType.TYPE_HEIGHT Operation.SUBTRACT src index hgt
        alpha o).r = CLAMP (src.r - hgt * alpha * o) 0 1 ∧
    (operate_map_blend MapType.TYPE_HEIGHT Operation.MULTIPLY src index hgt
        alpha o).r = CLAMP (src.r * (alpha * hgt * o + 1)) 0 1 ∧
    (operate_map_blend MapType.TYPE_HEIGHT Operation.REPLACE src index hgt
        alpha o).r = CLAMP (lerp src.r hgt alpha) 0 1 ∧
    (operate_map_blend MapType.TYPE_HEIGHT Operation.REPLACE src index hgt 1
        o).r = CLAMP hgt 0 1 ∧
    (0 ≤ src.r → src.r ≤ 1 → ∀ op : Operation,
      (operate_map_blend MapType.TYPE_HEIGHT op src index hgt 0 o).r =
        src.r) := by
  refine ⟨rfl, rfl, rfl, rfl, ?_, ?_⟩
  · show CLAMP (lerp src.r hgt 1) 0 1 = CLAMP hgt 0 1
    rw [show lerp src.r hgt 1 = hgt by unfold lerp; ring]
  · intro h0 h1 op
    cases op with
    | ADD =>
      show CLAMP (src.r + hgt * 0 * o) 0 1 = src.r
      rw [show src.r + hgt * 0 * o = src.r by ring]
      exact CLAMP_eq_self _ h0 h1
    | SUBTRACT =>
      show CLAMP (src.r - hgt * 0 * o) 0 1 = src.r
      rw [show src.r - hgt * 0 * o = src.r by ring]
      exact CLAMP_eq_self _ h0 h1
    | MULTIPLY =>
      show CLAMP (src.r * (0 * hgt * o + 1)) 0 1 = src.r
      rw [show src.r * (0 * hgt * o + 1) = src.r by ring]
      exact CLAMP_eq_self _ h0 h1
    | REPLACE =>
      show CLAMP (lerp src.r hgt 0) 0 1 = src.r
      rw [show lerp src.r hgt 0 = src.r by unfold lerp; ring]
      exact CLAMP_eq_self _ h0 h1

/-- C7 witness: concrete evaluation of the REPLACE-at-alpha-0 consequence on
an in-range stored height. -/
theorem claim_C7_height_blend_formulas_witness :
    (operate_map_blend MapType.TYPE_HEIGHT Operation.REPLACE
      ⟨1 / 2, 0, 0, 1⟩ 0 (3 / 4) 0 1).r = (⟨1 / 2, 0, 0, 1⟩ : Color).r :=
  (claim_C7_height_blend_formulas ⟨1 / 2, 0, 0, 1⟩ 0 (3 / 4) 0 1).2.2.2.2.2
    (by norm_num) (by norm_num) Operation.REPLACE

/-- C8: control-map ADD semantics: with `alpha_clip` 0 below the 0.1 falloff
threshold and 1 otherwise, the destination overlay index is
`lerp(current_overlay_idx, idx, alpha_clip)`; when it equals the pixel's
existing base index the blend channel is lerped toward 0 and the overlay
channel is left as it was, otherwise the overlay channel becomes
`dest_overlay_idx / 255` and the blend channel is lerped toward
`clamp(old_blend + o * alpha, 0, 1)`; in particular ADD with the brush index
equal to the base index at `alpha_clip = 1` drives the blend factor to 0 and
raises no overlay. -/
theorem claim_C8_control_add_semantics (src : Color) (index : Int)
    (hgt alpha o : ℚ) :
    (cint (lerp ((cint (src.g * 255) : Int) : ℚ) ((index : Int) : ℚ)
        (if alpha < 1 / 10 then 0 else 1)) = cint (src.r * 255) →
      operate_map_blend MapType.TYPE_CONTROL Operation.ADD src index hgt
          alpha o =
        { src with b := lerp src.b 0 (if alpha < 1 / 10 then 0 else 1) }) ∧
    (cint (lerp ((cint (src.g * 255) : Int) : ℚ) ((index : Int) : ℚ)
        (if alpha < 1 / 10 then 0 else 1)) ≠ cint (src.r * 255) →
      operate_map_blend MapType.TYPE_CONTROL Operation.ADD src index hgt
          alpha o =
        { src with
          g := ((cint (lerp ((cint (src.g * 255) : Int) : ℚ)
              ((index : Int) : ℚ)
              (if alpha < 1 / 10 then 0 else 1)) : Int) : ℚ) / 255,
          b := lerp src.b (CLAMP (src.b + o * alpha) 0 1)
              (if alpha < 1 / 10 then 0 else 1) }) ∧
    (1 / 10 ≤ alpha → cint (src.r * 255) = index →
      (operate_map_blend MapType.TYPE_CONTROL Operation.ADD src index hgt
          alpha o).b = 0 ∧
      (operate_map_blend MapType.TYPE_CONTROL Operation.ADD src index hgt
          alpha o).g = src.g) := by
  refine ⟨?_, ?_, ?_⟩
  · intro hd
    simp only [operate_map_blend]
    rw [if_pos hd]
  · intro hd
    simp only [operate_map_blend]
    rw [if_neg hd]
  · intro ha hbase
    have hac : (if alpha < 1 / 10 then (0 : ℚ) else 1) = 1 :=
      if_neg (not_lt.mpr ha)
    have hd : cint (lerp ((cint (src.g * 255) : Int) : ℚ) ((index : Int) : ℚ)
        (if alpha < 1 / 10 then 0 else 1)) = cint (src.r * 255) := by
      rw [hac]
      rw [show lerp ((cint (src.g * 255) : Int) : ℚ) ((index : Int) : ℚ) 1 =
            ((index : Int) : ℚ) by unfold lerp; ring]
      rw [cint_intCast]
      exact hbase.symm
    constructor
    · simp only [operate_map_blend]
      rw [if_pos hd, hac]
      show lerp src.b 0 1 = 0
      unfold lerp
      ring
    · simp only [operate_map_blend]
      rw [if_pos hd]

/-- C8 witness: a pixel with base index 3, brush index 3, falloff 1 and
opacity 1 collapses its blend channel to 0 with the overlay untouched. -/
theorem claim_C8_control_add_semantics_witness :
    (operate_map_blend MapType.TYPE_CONTROL Operation.ADD
      ⟨3 / 255, 0, 1 / 2, 1⟩ 3 0 1 1).b = 0 ∧
    (operate_map_blend MapType.TYPE_CONTROL Operation.ADD
      ⟨3 / 255, 0, 1 / 2, 1⟩ 3 0 1 1).g = (⟨3 / 255, 0, 1 / 2, 1⟩ : Color).g :=
  (claim_C8_control_add_semantics ⟨3 / 255, 0, 1 / 2, 1⟩ 3 0 1 1).2.2
    (by norm_num) (by norm_num [cint])

/-- C10: in the brush loop every tile write and every falloff-mask read is
guarded by `_is_in_bounds`: whenever the guarded pixel addressing of a
footprint cell produces positions (the cell is not skipped), the written tile
coordinate lies in `[0, region_size)` and the sampled mask coordinate lies in
`[0, mask_size)` on each axis, so no out-of-range image access is reachable
during a stroke. -/
theorem claim_C10_brush_write_and_sample_in_bounds (region_size s : Int)
    (imgSize : Vec2i) (c sn : ℚ) (pos : Vec3) (x y : Int) (mp bp : Vec2i)
    (h : operate_map_pixel_positions region_size s imgSize c sn pos x y =
      some (mp, bp)) :
    (0 ≤ mp.x ∧ mp.x < region_size) ∧ (0 ≤ mp.y ∧ mp.y < region_size) ∧
    (0 ≤ bp.x ∧ bp.x < imgSize.x) ∧ (0 ≤ bp.y ∧ bp.y < imgSize.y) := by
  simp only [operate_map_pixel_positions] at h
  split_ifs at h with h1 h2
  · unfold is_in_bounds at h1 h2
    simp only [Option.some.injEq, Prod.mk.injEq] at h
    obtain ⟨hmp, hbp⟩ := h
    subst hmp
    subst hbp
    obtain ⟨⟨a1, a2⟩, a3, a4⟩ := h1
    obtain ⟨⟨b1, b2⟩, b3, b4⟩ := h2
    exact ⟨⟨a1, a3⟩, ⟨a2, a4⟩, ⟨b1, b3⟩, ⟨b2, b4⟩⟩

theorem c10_cell_eval :
    operate_map_pixel_positions 64 1 ⟨8, 8⟩ 1 0 ⟨0, 0, 0⟩ 0 0 =
      some (⟨32, 32⟩, ⟨0, 0⟩) := by
  have htd : Int.tdiv 1 2 = 0 := by decide
  have hcell : brush_cell_position 1 ⟨0, 0, 0⟩ 0 0 = ⟨0, 0, 0⟩ := by
    unfold brush_cell_position
    rw [htd]
    norm_num [Vec3.mk.injEq]
  simp only [operate_map_pixel_positions, hcell]
  have huv : get_uv_position ⟨0, 0, 0⟩ 64 = (1 / 2, 1 / 2) := by
    unfold get_uv_position
    norm_num [Prod.mk.injEq]
  rw [huv]
  norm_num [rotate_uv, CLAMP, cint, is_in_bounds]

/-- C10 witness: a concrete accepted cell of a size-one brush at the origin
with identity rotation writes tile pixel (32, 32) of a 64-wide region and
samples mask pixel (0, 0) of an 8-wide mask, all within bounds. -/
theorem claim_C10_brush_write_and_sample_in_bounds_witness :
    (0 ≤ (⟨32, 32⟩ : Vec2i).x ∧ (⟨32, 32⟩ : Vec2i).x < 64) ∧
    (0 ≤ (⟨32, 32⟩ : Vec2i).y ∧ (⟨32, 32⟩ : Vec2i).y < 64) ∧
    (0 ≤ (⟨0, 0⟩ : Vec2i).x ∧ (⟨0, 0⟩ : Vec2i).x < (⟨8, 8⟩ : Vec2i).x) ∧
    (0 ≤ (⟨0, 0⟩ : Vec2i).y ∧ (⟨0, 0⟩ : Vec2i).y < (⟨8, 8⟩ : Vec2i).y) :=
  claim_C10_brush_write_and_sample_in_bounds 64 1 ⟨8, 8⟩ 1 0 ⟨0, 0, 0⟩ 0 0
    ⟨32, 32⟩ ⟨0, 0⟩ c10_cell_eval

end Terrain3D
